import Mathlib

/-!
Verification development for the mixwise-second data-curation pipeline
(scripts/enrich_cocktails.py, scripts/validate_ingredients.py,
scripts/validate_slugs.py).

Strings are modelled as lists of Unicode code points (`List Nat`); the
function `codes` converts a Lean `String` at the boundary.  Python regular
expressions over the junk patterns are modelled by a small token matcher
(`reMatch`) covering exactly the constructs the patterns use.  The Unicode
character classes `\w` and `\s` of Python are modelled by `isWordChar` and
`isSpaceChar`, restricted to the ASCII and Latin ranges: these cover every
character occurring in the repository data and in the claims.
-/

/-- Code points of a string, the bridge between `String` and the model. -/
def codes (s : String) : List Nat :=
  s.toList.map Char.toNat

/-- Python `str.lower` on one code point, for the ASCII and Latin-1 ranges
(characters outside these ranges that occur in the data are already
lowercase and are left unchanged, as Python does). -/
def pyLower (n : Nat) : Nat :=
  if 65 ≤ n ∧ n ≤ 90 then n + 32
  else if 192 ≤ n ∧ n ≤ 222 ∧ n ≠ 215 then n + 32
  else n

/-- Python `str.lower` over a whole string. -/
def lowerCodes (s : List Nat) : List Nat :=
  s.map pyLower

/-- Python regex class `\w` (word character), restricted to the ASCII,
Latin-1 and Latin Extended-A ranges. -/
def isWordChar (n : Nat) : Bool :=
  (48 ≤ n ∧ n ≤ 57) || (65 ≤ n ∧ n ≤ 90) || (97 ≤ n ∧ n ≤ 122) || n == 95 ||
    (192 ≤ n ∧ n ≤ 255 ∧ n ≠ 215 ∧ n ≠ 247) || (256 ≤ n ∧ n ≤ 383)

/-- Python regex class `\s` (whitespace), restricted to the characters
`str.strip` and `\s` agree on in the ASCII and Latin-1 ranges. -/
def isSpaceChar (n : Nat) : Bool :=
  n == 32 || n == 9 || n == 10 || n == 13 || n == 11 || n == 12 || n == 160

/-- Python `str.strip` with no arguments: drop whitespace at both ends. -/
def pyStrip (s : List Nat) : List Nat :=
  ((s.dropWhile isSpaceChar).reverse.dropWhile isSpaceChar).reverse

/-- Whether the pattern list is matched by a prefix of the string
(elementwise literal comparison). -/
def leadMatch : List Nat → List Nat → Bool
  | [], _ => true
  | _ :: _, [] => false
  | a :: u, b :: v => a == b && leadMatch u v

/-- Python substring test `sub in s`. -/
def hasSub (sub : List Nat) : List Nat → Bool
  | [] => leadMatch sub []
  | c :: t => leadMatch sub (c :: t) || hasSub sub t

/-- Token of the junk-pattern regular expressions: a literal character, the
class `[a-z]`, an optional character `c?`, the stars `\s*` and `.*`, and the
end anchor. -/
inductive RTok where
  | lit : Nat → RTok
  | lcls : RTok
  | optc : Nat → RTok
  | wsStar : RTok
  | anyStar : RTok
  | eos : RTok
deriving Repr, DecidableEq

/-- Matching of a starred character class: try the continuation at every
suffix reachable by consuming characters of the class. -/
def starMatch (p : Nat → Bool) (k : List Nat → Bool) : List Nat → Bool
  | [] => k []
  | d :: s => k (d :: s) || (p d && starMatch p k s)

/-- Anchored regex matching in the style of Python `re.match`: the pattern
must match a prefix of the string, `eos` demands the end of the string, and
the stars `\s*` and `.*` try every number of repetitions. -/
def reMatch : List RTok → List Nat → Bool
  | [], _ => true
  | .eos :: ps, s => s.isEmpty && reMatch ps s
  | .lit c :: ps, s =>
      match s with
      | [] => false
      | d :: t => c == d && reMatch ps t
  | .lcls :: ps, s =>
      match s with
      | [] => false
      | d :: t => (97 ≤ d && d ≤ 122) && reMatch ps t
  | .optc c :: ps, s =>
      reMatch ps s ||
        (match s with
         | [] => false
         | d :: t => c == d && reMatch ps t)
  | .wsStar :: ps, s => starMatch isSpaceChar (reMatch ps) s
  | .anyStar :: ps, s => starMatch (fun d => d != 10) (reMatch ps) s

/-- Literal tokens of a string. -/
def lits (s : String) : List RTok :=
  (codes s).map RTok.lit

/-- The JUNK_PATTERNS list of enrich_cocktails.py, in source order.  The
leading `^` of several patterns is dropped because `re.match` is anchored at
the start anyway; `$` becomes the token `RTok.eos`. -/
def JUNK_PATTERNS : List (List RTok) :=
  [ [RTok.lcls, RTok.eos]
  , lits "a1" ++ [RTok.eos]
  , lits "abc" ++ [RTok.eos]
  , lits "ace" ++ [RTok.eos]
  , lits "at&t" ++ [RTok.eos]
  , lits "acid" ++ [RTok.eos]
  , lits "adam" ++ [RTok.eos]
  , [RTok.lit 97, RTok.optc 46, RTok.wsStar, RTok.lit 106, RTok.optc 46, RTok.eos]
  , lits "abilene" ++ [RTok.eos]
  , lits "addison" ++ [RTok.eos]
  , lits "apello" ++ [RTok.eos]
  , lits "avalanche" ++ [RTok.eos]
  , lits "brain" ++ [RTok.wsStar] ++ lits "fart"
  , lits "fuzzy" ++ [RTok.wsStar] ++ lits "asshole"
  , lits "flaming" ++ [RTok.wsStar] ++ lits "dr" ++ [RTok.optc 46, RTok.wsStar] ++ lits "pepper"
  , lits "fahrenheit" ++ [RTok.wsStar] ++ lits "5000"
  , lits "big" ++ [RTok.wsStar] ++ lits "red" ++ [RTok.eos]
  , lits "bible" ++ [RTok.wsStar] ++ lits "belt"
  , lits "baby" ++ [RTok.wsStar] ++ lits "eskimo"
  , lits "bob" ++ [RTok.wsStar] ++ lits "marley"
  , lits "bubble" ++ [RTok.wsStar] ++ lits "gum" ++ [RTok.eos]
  , lits "citrus" ++ [RTok.wsStar] ++ lits "coke" ++ [RTok.eos]
  , lits "gg" ++ [RTok.eos]
  , lits "damned" ++ [RTok.wsStar] ++ lits "if" ++ [RTok.wsStar] ++ lits "you" ++ [RTok.wsStar] ++ lits "do"
  , lits "egg" ++ [RTok.wsStar] ++ lits "cream" ++ [RTok.eos]
  , lits "coke" ++ [RTok.wsStar] ++ lits "and" ++ [RTok.wsStar] ++ lits "drops"
  , lits "diesel" ++ [RTok.eos]
  , lits "danbooka" ++ [RTok.eos]
  , lits "downshift" ++ [RTok.eos]
  , lits "darkwood" ++ [RTok.wsStar] ++ lits "sling"
  , lits "flander" ++ [RTok.anyStar] ++ lits "flake"
  , lits "afterglow" ++ [RTok.eos]
  , lits "addington" ++ [RTok.eos]
  , lits "affair" ++ [RTok.eos]
  ]

/-- Whether any junk pattern matches (anchored at position 0). -/
def junkAny (s : List Nat) : Bool :=
  JUNK_PATTERNS.any (fun p => reMatch p s)

/-- The LEGITIMATE_COCKTAILS set of enrich_cocktails.py as the list of its
entries in source order (the Python literal is a set, so duplicate entries
and order are irrelevant to membership), each converted to code points. -/
def LEGITIMATE_COCKTAILS : List (List Nat) :=
  (
    [ "alexander"
    , "americano"
    , "aviation"
    , "b-52"
    , "bellini"
    , "bijou"
    , "bramble"
    , "caipirinha"
    , "casino"
    , "clover club"
    , "cosmopolitan"
    , "cuba libre"
    , "daiquiri"
    , "dry martini"
    , "espresso martini"
    , "french 75"
    , "french connection"
    , "gimlet"
    , "gin fizz"
    , "godfather"
    , "godmother"
    , "grasshopper"
    , "greyhound"
    , "harvey wallbanger"
    , "hemingway special"
    , "horse\x27s neck"
    , "irish coffee"
    , "john collins"
    , "long island iced tea"
    , "mai tai"
    , "manhattan"
    , "margarita"
    , "martini"
    , "mimosa"
    , "mint julep"
    , "mojito"
    , "moscow mule"
    , "negroni"
    , "old fashioned"
    , "paloma"
    , "pina colada"
    , "pisco sour"
    , "planter\x27s punch"
    , "porto flip"
    , "ramos gin fizz"
    , "rob roy"
    , "rusty nail"
    , "sazerac"
    , "screwdriver"
    , "sea breeze"
    , "sex on the beach"
    , "sidecar"
    , "singapore sling"
    , "tequila sunrise"
    , "tom collins"
    , "vesper"
    , "whiskey sour"
    , "white russian"
    , "blood and sand"
    , "boulevardier"
    , "brandy alexander"
    , "bronx"
    , "brooklyn"
    , "casino royale"
    , "corpse reviver"
    , "last word"
    , "martinez"
    , "monkey gland"
    , "pegu club"
    , "pink lady"
    , "ramos fizz"
    , "vieux carr\u00e9"
    , "ward eight"
    , "widow\x27s kiss"
    , "army & navy"
    , "bamboo"
    , "hanky panky"
    , "income tax"
    , "aperol spritz"
    , "dark \x27n\x27 stormy"
    , "espresso martini"
    , "french martini"
    , "bramble"
    , "tommy\x27s margarita"
    , "penicillin"
    , "naked and famous"
    , "paper plane"
    , "suffering bastard"
    , "ti\x27 punch"
    , "jungle bird"
    , "chartreuse swizzle"
    , "zombie"
    , "mai tai"
    , "painkiller"
    , "navy grog"
    , "fog cutter"
    , "pearl diver"
    , "saturn"
    , "three dots and a dash"
    , "missionary\x27s downfall"
    , "rum runner"
    , "bahama mama"
    , "blue hawaiian"
    , "chi chi"
    , "hurricane"
    , "jet pilot"
    , "pi\u00f1a colada"
    , "planter\x27s punch"
    , "scorpion"
    , "suffering bastard"
    , "elderflower collins"
    , "gold rush"
    , "oaxaca old fashioned"
    , "division bell"
    , "death flip"
    , "greenpoint"
    , "little italy"
    , "red hook"
    , "trident"
    , "bitter giuseppe"
    , "black manhattan"
    , "bobby burns"
    , "brandy crusta"
    , "breakfast martini"
    , "benton\x27s old fashioned"
    , "chrysanthemum"
    , "improved whiskey cocktail"
    , "adonis"
    , "affinity"
    , "algonquin"
    , "artillery"
    , "barracuda"
    , "bellini"
    , "blinker"
    , "bobby burns"
    , "boston sour"
    , "bramble"
    , "bronx"
    , "brooklyn"
    , "buck\x27s fizz"
    , "caipirissima"
    , "champagne cocktail"
    , "clover club"
    , "cornell"
    , "death in the afternoon"
    , "derby"
    , "diamond fizz"
    , "dubonnet cocktail"
    , "el presidente"
    , "english rose cocktail"
    , "fiance"
    , "fitzgerald"
    , "flamingo"
    , "french negroni"
    , "frose"
    , "frozen daiquiri"
    , "gibson"
    , "gimlet"
    , "gin and tonic"
    , "gin daisy"
    , "gin fizz"
    , "gin rickey"
    , "gin sour"
    , "gluehwein"
    , "golden dream"
    , "grasshopper"
    , "hemingway daiquiri"
    , "hot toddy"
    , "improved cognac cocktail"
    , "irish coffee"
    , "jack rose"
    , "japanese cocktail"
    , "kir"
    , "kir royale"
    , "lemondrop"
    , "long island iced tea"
    , "lynchburg lemonade"
    , "manhattan"
    , "margarita"
    , "mary pickford"
    , "mexican firing squad"
    , "millionaire cocktail"
    , "mint julep"
    , "mojito"
    , "moscow mule"
    , "negroni"
    , "negroni sbagliato"
    , "old cuban"
    , "old fashioned"
    , "paloma"
    , "paradise"
    , "pegu club"
    , "pimm\x27s cup"
    , "pisco sour"
    , "planter\x27s punch"
    , "port and starboard"
    , "ramos gin fizz"
    , "remember the maine"
    , "rob roy"
    , "rusty nail"
    , "sazerac"
    , "scofflaw"
    , "screwdriver"
    , "seelbach"
    , "sherry cobbler"
    , "sidecar"
    , "singapore sling"
    , "sloe gin fizz"
    , "smithsonian"
    , "southside"
    , "stinger"
    , "suffering bastard"
    , "tequila sunrise"
    , "tom collins"
    , "toronto"
    , "twentieth century"
    , "vesper"
    , "vieux carr\u00e9"
    , "ward eight"
    , "whiskey smash"
    , "whiskey sour"
    , "white lady"
    , "white russian"
    , "yellow bird"
    , "adonis"
    , "bijou"
    , "boothby"
    , "boxcar"
    , "brandy crusta"
    , "casino"
    , "chicago fizz"
    , "corn n oil"
    , "dark caipirinha"
    , "dirty martini"
    , "dragonfly"
    , "dry rob roy"
    , "duchamp\x27s punch"
    , "english highball"
    , "fancy free"
    , "figgy thyme"
    , "flying dutchman"
    , "flying scotchman"
    , "frisco sour"
    , "frozen mint daiquiri"
    , "frozen pineapple daiquiri"
    , "gagliardo"
    , "gin and it"
    , "gin cooler"
    , "gin daisy"
    , "gin lemon"
    , "gin rickey"
    , "gin sling"
    , "gin smash"
    , "gin squirt"
    , "gin swizzle"
    , "gin toddy"
    , "gin tonic"
    , "grass skirt"
    , "grim reaper"
    , "pink gin"
    , "sherry flip"
    , "stone sour"
    , "amaretto sour"
    , "apple martini"
    , "b-53"
    , "between the sheets"
    , "black russian"
    , "blackthorn"
    , "blue lagoon"
    , "bluebird"
    , "bora bora"
    , "boomerang"
    , "brigadier"
    , "buccaneer"
    , "bumble bee"
    , "cherry bomb"
    , "cuba libra"
    , "dirty nipple"
    , "flaming lamborghini"
    , "freddy kruger"
    , "french 75"
    , "foxy lady"
    , "funk and soul"
    , "gin and tonic"
    , "godchild"
    , "grand blue"
    , "godson"
    , "kamikaze"
    , "kir"
    , "kiss on the lips"
    , "lemon drop"
    , "lion\x27s tail"
    , "long vodka"
    , "lynchburg lemonade"
    , "madras"
    , "melon ball"
    , "metropolitan"
    , "midori sour"
    , "mother\x27s milk"
    , "mudslide"
    , "new york sour"
    , "nuclear daiquiri"
    , "orange push-up"
    , "orgasm"
    , "passion fruit martini"
    , "pimm\x27s cup"
    , "pink panther"
    , "purple haze"
    , "radioactive long island iced tea"
    , "red snapper"
    , "royal gin fizz"
    , "rum and coke"
    , "rum punch"
    , "rum swizzle"
    , "sake bomb"
    , "salty dog"
    , "savoy tango"
    , "screaming orgasm"
    , "slippery nipple"
    , "snow ball"
    , "southern comfort manhattan"
    , "southern peach"
    , "stinger"
    , "strawberry daiquiri"
    , "sweet martini"
    , "tequila slammer"
    , "tequila sunrise"
    , "tipperary"
    , "tokyo iced tea"
    , "turf club"
    , "valencia"
    , "vampire"
    , "vodka martini"
    , "vodka tonic"
    , "woo woo"
    , "acapulco"
    , "affair"
    , "allegheny"
    , "almeria"
    , "applecar"
    , "avalon"
    , "balmoral"
    , "boston sour"
    , "cafe savoy"
    , "casa blanca"
    , "cherry rum"
    , "chocolate milk"
    ]  ).map codes

/-- Function normalize_name of enrich_cocktails.py: on a falsy (empty) name
return the empty string, otherwise lowercase, delete every character that is
neither a word character nor whitespace, and trim whitespace. -/
def normalize_name (name : String) : List Nat :=
  if name = "" then []
  else pyStrip ((lowerCodes (codes name)).filter (fun n => isWordChar n || isSpaceChar n))

/-- Function is_legitimate_cocktail of enrich_cocktails.py: reject when any
junk pattern matches the normalized name, otherwise accept exactly the
members of the allow-list. -/
def is_legitimate_cocktail (name : String) : Bool :=
  let normalized := normalize_name name
  if junkAny normalized then false
  else LEGITIMATE_COCKTAILS.contains normalized

/-- Whitespace-or-underscore class `[\s_]` of the second substitution in
create_slug. -/
def isWsUnd (n : Nat) : Bool :=
  isSpaceChar n || n == 95

/-- Replacement of every run of `[\s_]+` by a single hyphen (code 45); the
flag records whether the previous character belonged to the current run. -/
def collapseWsAux : Bool → List Nat → List Nat
  | _, [] => []
  | inRun, c :: s =>
      if isWsUnd c then
        if inRun then collapseWsAux true s else 45 :: collapseWsAux true s
      else c :: collapseWsAux false s

/-- Regex substitution `re.sub(r'[\s_]+', '-', s)`. -/
def collapseWs (s : List Nat) : List Nat :=
  collapseWsAux false s

/-- Python `str.strip('-')`: drop hyphens at both ends. -/
def stripHyphens (s : List Nat) : List Nat :=
  ((s.dropWhile (fun n => n == 45)).reverse.dropWhile (fun n => n == 45)).reverse

/-- Core of create_slug on code points: lowercase, delete characters other
than word characters, whitespace and hyphen, collapse whitespace/underscore
runs to single hyphens, trim hyphens. -/
def slugCodes (s : List Nat) : List Nat :=
  stripHyphens (collapseWs ((lowerCodes s).filter
    (fun n => isWordChar n || isSpaceChar n || n == 45)))

/-- Function create_slug of enrich_cocktails.py at the string boundary. -/
def create_slug (name : String) : List Nat :=
  slugCodes (codes name)

/-- Slug-deduplication loop of main in enrich_cocktails.py over records as
pairs (id, slug): when the slug is already registered the record is renamed
to slug-id with its own id and the registry is left unchanged, otherwise the
slug is registered with the id of the record. -/
def assignSlugs : List (List Nat × List Nat) → List (List Nat × List Nat) → List (List Nat × List Nat)
  | _, [] => []
  | seen, (i, slug) :: rest =>
      if seen.any (fun p => p.1 == slug) then
        (i, slug ++ 45 :: i) :: assignSlugs seen rest
      else
        (i, slug) :: assignSlugs ((slug, i) :: seen) rest

/-- Enrichment pass of main restricted to slug assignment: records are pairs
of an id string and a name string, slugs are generated by create_slug and
deduplicated in input order starting from an empty registry. -/
def mainDedup (rows : List (String × String)) : List (List Nat × List Nat) :=
  assignSlugs [] (rows.map (fun r => (codes r.1, create_slug r.2)))

/-- Python `str.split('|')`: split on every pipe (code 124), keeping empty
pieces; the empty string yields one empty piece. -/
def splitPipe : List Nat → List (List Nat)
  | [] => [[]]
  | c :: s =>
      if c == 124 then [] :: splitPipe s
      else
        match splitPipe s with
        | [] => [[c]]
        | t :: ts => (c :: t) :: ts

/-- Whether the string contains an ASCII letter, the test
`re.search(r'[a-zA-Z]', s)`. -/
def hasAsciiLetter (s : List Nat) : Bool :=
  s.any (fun n => (65 ≤ n ∧ n ≤ 90) || (97 ≤ n ∧ n ≤ 122))

/-- Function validate_ingredient_format of validate_ingredients.py: strip
the token, then apply the checks in source order, the first failing check
deciding the verdict and its message. -/
def validate_ingredient_format (ingredient : List Nat) : Bool × Option String :=
  let i := pyStrip ingredient
  if i = [] then (false, some "Empty ingredient")
  else if hasSub (codes "???") i then (false, some "Contains \x27???\x27")
  else if i = codes "null" ∨ i = codes "None" then (false, some "Invalid null value")
  else if i.length < 2 then (false, some "Too short")
  else if 0 < i.count 124 then (false, some "Contains pipe character (should be split)")
  else if hasAsciiLetter i = false then (false, some "No ingredient name found")
  else (true, none)

/-- Tokens of one ingredients cell: the stripped cell split on pipes, each
piece stripped, as in the row loop of validate_ingredients. -/
def rowTokens (ing : List Nat) : List (List Nat) :=
  (splitPipe (pyStrip ing)).map pyStrip

/-- Error diagnostics one CSV row contributes in validate_ingredients: a
blank ingredients cell is reported directly, otherwise every token failing
validate_ingredient_format is reported with the message of its first failing
check. -/
def rowErrors (line : Nat) (ing : List Nat) : List (Nat × String) :=
  if pyStrip ing = [] then [(line, "No ingredients listed")]
  else
    (rowTokens ing).filterMap (fun tok =>
      match validate_ingredient_format tok with
      | (true, _) => none
      | (false, m) => some (line, m.getD ""))

/-- Warning diagnostics one CSV row contributes in validate_ingredients:
fewer than 2 or more than 15 tokens (a blank cell was already reported as an
error and is skipped by continue). -/
def rowWarnings (line : Nat) (ing : List Nat) : List (Nat × String) :=
  if pyStrip ing = [] then []
  else
    let k := (splitPipe (pyStrip ing)).length
    (if k < 2 then [(line, "Only few ingredients listed")] else []) ++
      (if 15 < k then [(line, "very complex cocktail")] else [])

/-- Errors of all rows, numbering lines from the given start (the CSV data
starts at line 2, the header being line 1). -/
def ingErrorsFrom (line : Nat) : List (List Nat) → List (Nat × String)
  | [] => []
  | ing :: rest => rowErrors line ing ++ ingErrorsFrom (line + 1) rest

/-- Error list of the whole file in validate_ingredients. -/
def ingErrors (rows : List (List Nat)) : List (Nat × String) :=
  ingErrorsFrom 2 rows

/-- Number of ingredient tokens one row adds to total_ingredients: zero for
a blank cell (skipped by continue), otherwise the number of pipe pieces. -/
def rowIngCount (ing : List Nat) : Nat :=
  if pyStrip ing = [] then 0 else (splitPipe (pyStrip ing)).length

/-- Counter total_ingredients over the whole file. -/
def totalIngredients (rows : List (List Nat)) : Nat :=
  (rows.map rowIngCount).sum

/-- Python division raising ZeroDivisionError on a zero divisor, modelled as
`none`. -/
def pyDiv (a b : Nat) : Option Nat :=
  if b = 0 then none else some (a / b)

/-- Function validate_ingredients of validate_ingredients.py over the list
of ingredients cells of the data rows: the summary line divides
total_ingredients by total_rows, so a file with zero data rows raises
ZeroDivisionError (modelled as `none`) before any verdict; otherwise the
verdict is True exactly when no error was collected (warnings play no
part).  A True verdict makes main exit 0, a False one exit 1. -/
def validate_ingredients (rows : List (List Nat)) : Option Bool :=
  match pyDiv (totalIngredients rows) rows.length with
  | none => none
  | some _ => some (ingErrors rows).isEmpty

/-- Function is_url_safe of validate_slugs.py: the full-match test of the
pattern `^[a-z0-9-]+$` (nonempty, and every character a lowercase ASCII
letter, digit, or hyphen). -/
def is_url_safe (slug : List Nat) : Bool :=
  decide (slug ≠ []) &&
    slug.all (fun n => (97 ≤ n ∧ n ≤ 122) || (48 ≤ n ∧ n ≤ 57) || n == 45)

/-- Error diagnostics one row contributes in validate_slugs, tagged with the
line number and an abbreviation of the message text of the script: a blank
slug is reported alone (the loop continues), otherwise the lowercase check,
the URL-safety check and the edge-hyphen check each contribute
independently, so one slug can report several errors. -/
def rowSlugErrors (line : Nat) (raw : List Nat) : List (Nat × String) :=
  let slug := pyStrip raw
  if slug = [] then [(line, "Empty slug")]
  else
    (if slug ≠ lowerCodes slug then [(line, "contains uppercase letters")] else []) ++
      (if is_url_safe slug = false then [(line, "is not URL-safe")] else []) ++
        (if slug.head? = some 45 ∨ slug.getLast? = some 45 then
          [(line, "has leading or trailing hyphens")] else [])

/-- Warning diagnostics one row contributes in validate_slugs: consecutive
hyphens in a nonblank slug. -/
def rowSlugWarnings (line : Nat) (raw : List Nat) : List (Nat × String) :=
  let slug := pyStrip raw
  if slug = [] then []
  else if hasSub (codes "--") slug then [(line, "contains consecutive hyphens")]
  else []

/-- Per-slug errors of all rows, numbering lines from the given start. -/
def slugErrorsFrom (line : Nat) : List (List Nat) → List (Nat × String)
  | [] => []
  | raw :: rest => rowSlugErrors line raw ++ slugErrorsFrom (line + 1) rest

/-- Per-slug error list of the whole file in validate_slugs. -/
def slugErrors (rows : List (List Nat)) : List (Nat × String) :=
  slugErrorsFrom 2 rows

/-- The slugs list validate_slugs accumulates: the stripped slug of every
row whose stripped slug is nonblank, in input order. -/
def collectedSlugs (rows : List (List Nat)) : List (List Nat) :=
  rows.filterMap (fun raw =>
    let slug := pyStrip raw
    if slug = [] then none else some slug)

/-- Distinct elements of a list in first-occurrence order, skipping those
already seen. -/
def dedupKeysAux (seen : List (List Nat)) : List (List Nat) → List (List Nat)
  | [] => []
  | x :: xs =>
      if x ∈ seen then dedupKeysAux seen xs
      else x :: dedupKeysAux (x :: seen) xs

/-- Distinct elements of a list in first-occurrence order, the key order of
a Python Counter built from the list. -/
def dedupKeys (l : List (List Nat)) : List (List Nat) :=
  dedupKeysAux [] l

/-- The duplicates dictionary of validate_slugs: every distinct slug whose
multiplicity in the collected slug list exceeds one, paired with that
multiplicity, in first-occurrence order. -/
def duplicatesReport (rows : List (List Nat)) : List (List Nat × Nat) :=
  let slugs := collectedSlugs rows
  (dedupKeys slugs).filterMap (fun s =>
    if 1 < slugs.count s then some (s, slugs.count s) else none)

/-- Function validate_slugs of validate_slugs.py over the list of slug cells
of the data rows: True (main exits 0) exactly when there is no per-slug
error and no duplicate; warnings play no part. -/
def validate_slugs (rows : List (List Nat)) : Bool :=
  (slugErrors rows).isEmpty && (duplicatesReport rows).isEmpty

/-- Whether any of the keywords occurs as a substring of the (already
lowercased) name, the test `any(x in name_lower for x in [...])`. -/
def hasKw (n : List Nat) (ks : List String) : Bool :=
  ks.any (fun k => hasSub (codes k) n)

/-- Function generate_flavor_profile of enrich_cocktails.py: per aspect a
priority-ordered keyword heuristic on the lowercased name, with a final
fallback of 5 for an unknown aspect string. -/
def generate_flavor_profile (name : String) (aspect : String) : Nat :=
  let n := lowerCodes (codes name)
  if aspect = "strength" then
    if hasKw n ["martini", "manhattan", "negroni", "sazerac", "old fashioned"] then 8
    else if hasKw n ["shot", "shooter"] then 9
    else if hasKw n ["spritz", "mimosa", "bellini"] then 3
    else 6
  else if aspect = "sweetness" then
    if hasKw n ["pina colada", "mai tai", "sex on the beach"] then 8
    else if hasKw n ["martini", "negroni", "sazerac"] then 2
    else 5
  else if aspect = "tartness" then
    if hasKw n ["sour", "daiquiri", "margarita", "gimlet"] then 7
    else if hasKw n ["old fashioned", "manhattan", "negroni"] then 2
    else 4
  else if aspect = "bitterness" then
    if hasKw n ["negroni", "americano", "aperol"] then 7
    else if hasKw n ["daiquiri", "mojito", "pina colada"] then 1
    else 3
  else if aspect = "aroma" then
    if hasKw n ["martini", "gin", "aviation", "negroni"] then 7
    else 5
  else if aspect = "texture" then
    if hasKw n ["flip", "sour"] && hasSub (codes "egg") n then 8
    else if hasKw n ["frozen", "blended", "pina colada"] then 7
    else if hasKw n ["martini", "manhattan"] then 4
    else 5
  else 5

/-- Statement of the amended claim C7, written from the code: the value an
aspect falls back to when none of its keyword groups matches. -/
def defaultFlavor (aspect : String) : Nat :=
  if aspect = "strength" then 6
  else if aspect = "sweetness" then 5
  else if aspect = "tartness" then 4
  else if aspect = "bitterness" then 3
  else if aspect = "aroma" then 5
  else if aspect = "texture" then 5
  else 5

/-- Condition of the amended claim C7: no keyword group of the given aspect
matches the lowercased name (vacuously true for an unknown aspect). -/
def noFlavorKeyword (name : String) (aspect : String) : Bool :=
  let n := lowerCodes (codes name)
  if aspect = "strength" then
    !(hasKw n ["martini", "manhattan", "negroni", "sazerac", "old fashioned"]) &&
      !(hasKw n ["shot", "shooter"]) && !(hasKw n ["spritz", "mimosa", "bellini"])
  else if aspect = "sweetness" then
    !(hasKw n ["pina colada", "mai tai", "sex on the beach"]) &&
      !(hasKw n ["martini", "negroni", "sazerac"])
  else if aspect = "tartness" then
    !(hasKw n ["sour", "daiquiri", "margarita", "gimlet"]) &&
      !(hasKw n ["old fashioned", "manhattan", "negroni"])
  else if aspect = "bitterness" then
    !(hasKw n ["negroni", "americano", "aperol"]) &&
      !(hasKw n ["daiquiri", "mojito", "pina colada"])
  else if aspect = "aroma" then
    !(hasKw n ["martini", "gin", "aviation", "negroni"])
  else if aspect = "texture" then
    !(hasKw n ["flip", "sour"] && hasSub (codes "egg") n) &&
      !(hasKw n ["frozen", "blended", "pina colada"]) &&
        !(hasKw n ["martini", "manhattan"])
  else true

theorem head?_dropWhile_not (p : Nat → Bool) (l : List Nat) :
    ∀ x, (l.dropWhile p).head? = some x → p x = false := by
  induction l with
  | nil => intro x h; simp [List.dropWhile] at h
  | cons a t ih =>
    intro x h
    rw [List.dropWhile_cons] at h
    by_cases hp : p a
    · rw [if_pos hp] at h; exact ih x h
    · rw [if_neg hp] at h
      simp only [List.head?_cons, Option.some.injEq] at h
      subst h
      simpa using hp

theorem dropWhile_eq_self_of_head (p : Nat → Bool) (l : List Nat)
    (h : ∀ x, l.head? = some x → p x = false) : l.dropWhile p = l := by
  cases l with
  | nil => rfl
  | cons a t =>
    rw [List.dropWhile_cons, if_neg]
    simp [h a rfl]

theorem exists_dropWhile_append (p : Nat → Bool) (l : List Nat) :
    ∃ t, t ++ l.dropWhile p = l := by
  induction l with
  | nil => exact ⟨[], rfl⟩
  | cons a t ih =>
    by_cases hp : p a
    · obtain ⟨u, hu⟩ := ih
      exact ⟨a :: u, by rw [List.dropWhile_cons, if_pos hp]; simpa using hu⟩
    · exact ⟨[], by rw [List.dropWhile_cons, if_neg hp]; rfl⟩

theorem mem_of_mem_dropWhile (p : Nat → Bool) (l : List Nat) (n : Nat)
    (h : n ∈ l.dropWhile p) : n ∈ l := by
  obtain ⟨t, ht⟩ := exists_dropWhile_append p l
  rw [← ht]
  exact List.mem_append_right t h

theorem stripHyphens_idem (s : List Nat) :
    stripHyphens (stripHyphens s) = stripHyphens s := by
  unfold stripHyphens
  set p : Nat → Bool := fun n => n == 45 with hp
  set w := (s.dropWhile p).reverse.dropWhile p with hw
  have hstep1 : w.reverse.dropWhile p = w.reverse := by
    apply dropWhile_eq_self_of_head
    intro x hx
    rw [List.head?_reverse] at hx
    obtain ⟨t, ht⟩ := exists_dropWhile_append p (s.dropWhile p).reverse
    rw [← hw] at ht
    have hwne : w ≠ [] := by
      intro hnil
      rw [hnil] at hx
      simp at hx
    have h2 : (s.dropWhile p).reverse.getLast? = some x := by
      rw [← ht, List.getLast?_append_of_ne_nil t hwne]
      exact hx
    have h3 : (s.dropWhile p).head? = some x := by
      have := List.head?_reverse (s.dropWhile p).reverse
      rw [List.reverse_reverse] at this
      rw [← this] at h2
      exact h2
    exact head?_dropWhile_not p s x h3
  rw [hstep1, List.reverse_reverse, hw, List.dropWhile_idempotent]

theorem mem_stripHyphens (s : List Nat) (n : Nat) (h : n ∈ stripHyphens s) : n ∈ s := by
  unfold stripHyphens at h
  rw [List.mem_reverse] at h
  have h1 := mem_of_mem_dropWhile _ _ _ h
  rw [List.mem_reverse] at h1
  exact mem_of_mem_dropWhile _ _ _ h1

theorem mem_collapseWsAux (s : List Nat) (b : Bool) (n : Nat)
    (h : n ∈ collapseWsAux b s) : n = 45 ∨ (n ∈ s ∧ isWsUnd n = false) := by
  induction s generalizing b with
  | nil => simp [collapseWsAux] at h
  | cons c t ih =>
    rw [collapseWsAux] at h
    by_cases hc : isWsUnd c
    · rw [if_pos hc] at h
      by_cases hb : b
      · subst hb
        rcases ih true h with h45 | ⟨hm, hn⟩
        · exact Or.inl h45
        · exact Or.inr ⟨List.mem_cons_of_mem c hm, hn⟩
      · simp only [Bool.not_eq_true] at hb
        subst hb
        rcases List.mem_cons.mp h with h45 | hrest
        · exact Or.inl h45
        · rcases ih true hrest with h45 | ⟨hm, hn⟩
          · exact Or.inl h45
          · exact Or.inr ⟨List.mem_cons_of_mem c hm, hn⟩
    · rw [if_neg hc] at h
      rcases List.mem_cons.mp h with heq | hrest
      · subst heq
        exact Or.inr ⟨List.mem_cons_self n t, by simpa using hc⟩
      · rcases ih false hrest with h45 | ⟨hm, hn⟩
        · exact Or.inl h45
        · exact Or.inr ⟨List.mem_cons_of_mem c hm, hn⟩

theorem collapseWsAux_eq_self (s : List Nat) (b : Bool)
    (h : ∀ n ∈ s, isWsUnd n = false) : collapseWsAux b s = s := by
  induction s generalizing b with
  | nil => rfl
  | cons c t ih =>
    rw [collapseWsAux, if_neg]
    · rw [ih false (fun n hn => h n (List.mem_cons_of_mem c hn))]
    · simp [h c (List.mem_cons_self c t)]

theorem pyLower_idem (n : Nat) : pyLower (pyLower n) = pyLower n := by
  simp only [pyLower]
  split_ifs <;> omega

theorem map_eq_self_of (f : Nat → Nat) (l : List Nat)
    (h : ∀ x ∈ l, f x = x) : l.map f = l := by
  induction l with
  | nil => rfl
  | cons a t ih =>
    rw [List.map_cons, h a (List.mem_cons_self a t),
      ih (fun x hx => h x (List.mem_cons_of_mem a hx))]

theorem slugCodes_chars (x : List Nat) (n : Nat) (h : n ∈ slugCodes x) :
    (isWordChar n = true ∧ isWsUnd n = false ∧ pyLower n = n) ∨ n = 45 := by
  unfold slugCodes collapseWs at h
  have h1 := mem_stripHyphens _ _ h
  rcases mem_collapseWsAux _ _ _ h1 with h45 | ⟨hmem, hwu⟩
  · exact Or.inr h45
  · rw [List.mem_filter] at hmem
    obtain ⟨hmap, hkeep⟩ := hmem
    have hfix : pyLower n = n := by
      rw [lowerCodes, List.mem_map] at hmap
      obtain ⟨m, _, hm⟩ := hmap
      rw [← hm]
      exact pyLower_idem m
    simp only [Bool.or_eq_true] at hkeep
    rcases hkeep with (hword | hspace) | h45
    · exact Or.inl ⟨hword, hwu, hfix⟩
    · exfalso
      have : isWsUnd n = true := by
        simp [isWsUnd, hspace]
      rw [this] at hwu
      exact Bool.true_eq_false.mp hwu
    · exact Or.inr (by simpa using h45)

theorem slugCodes_idem (x : List Nat) : slugCodes (slugCodes x) = slugCodes x := by
  have hchar := slugCodes_chars x
  have step1 : lowerCodes (slugCodes x) = slugCodes x := by
    apply map_eq_self_of
    intro n hn
    rcases hchar n hn with ⟨_, _, hfix⟩ | h45
    · exact hfix
    · subst h45; rfl
  have step2 : (slugCodes x).filter (fun n => isWordChar n || isSpaceChar n || n == 45) =
      slugCodes x := by
    rw [List.filter_eq_self]
    intro n hn
    rcases hchar n hn with ⟨hword, _, _⟩ | h45
    · simp [hword]
    · subst h45; simp
  have step3 : collapseWs (slugCodes x) = slugCodes x := by
    apply collapseWsAux_eq_self
    intro n hn
    rcases hchar n hn with ⟨_, hwu, _⟩ | h45
    · exact hwu
    · subst h45; rfl
  calc slugCodes (slugCodes x)
      = stripHyphens (collapseWs ((lowerCodes (slugCodes x)).filter
          (fun n => isWordChar n || isSpaceChar n || n == 45))) := rfl
    _ = stripHyphens (slugCodes x) := by rw [step1, step2, step3]
    _ = slugCodes x := by
        show stripHyphens (stripHyphens (collapseWs ((lowerCodes x).filter
          (fun n => isWordChar n || isSpaceChar n || n == 45)))) = _
        rw [stripHyphens_idem]
        rfl

theorem mem_dedupKeysAux (a : List Nat) (l : List (List Nat)) :
    ∀ seen, a ∈ dedupKeysAux seen l ↔ (a ∈ l ∧ a ∉ seen) := by
  induction l with
  | nil => intro seen; simp [dedupKeysAux]
  | cons x xs ih =>
    intro seen
    rw [dedupKeysAux]
    by_cases hx : x ∈ seen
    · rw [if_pos hx, ih]
      constructor
      · rintro ⟨h1, h2⟩
        exact ⟨List.mem_cons_of_mem x h1, h2⟩
      · rintro ⟨h1, h2⟩
        rcases List.mem_cons.mp h1 with rfl | h1
        · exact absurd hx h2
        · exact ⟨h1, h2⟩
    · rw [if_neg hx]
      constructor
      · intro h
        rcases List.mem_cons.mp h with rfl | h
        · exact ⟨List.mem_cons_self _ _, hx⟩
        · rw [ih] at h
          obtain ⟨h1, h2⟩ := h
          simp only [List.mem_cons, not_or] at h2
          exact ⟨List.mem_cons_of_mem x h1, h2.2⟩
      · rintro ⟨h1, h2⟩
        rcases List.mem_cons.mp h1 with rfl | h1
        · exact List.mem_cons_self _ _
        · by_cases hax : a = x
          · subst hax
            exact List.mem_cons_self _ _
          · apply List.mem_cons_of_mem
            rw [ih]
            exact ⟨h1, by simp [List.mem_cons, hax, h2]⟩

theorem nodup_dedupKeysAux (l : List (List Nat)) :
    ∀ seen, (dedupKeysAux seen l).Nodup := by
  induction l with
  | nil => intro seen; simp [dedupKeysAux]
  | cons x xs ih =>
    intro seen
    rw [dedupKeysAux]
    by_cases hx : x ∈ seen
    · rw [if_pos hx]
      exact ih seen
    · rw [if_neg hx, List.nodup_cons]
      refine ⟨?_, ih (x :: seen)⟩
      intro hmem
      rw [mem_dedupKeysAux] at hmem
      exact hmem.2 (List.mem_cons_self x seen)

theorem mem_dedupKeys (a : List Nat) (l : List (List Nat)) :
    a ∈ dedupKeys l ↔ a ∈ l := by
  rw [dedupKeys, mem_dedupKeysAux]
  simp

theorem dedupKeys_nodup (l : List (List Nat)) : (dedupKeys l).Nodup :=
  nodup_dedupKeysAux l []

theorem map_fst_filterMap_count (cnt : List Nat → Nat) (l : List (List Nat)) :
    (l.filterMap (fun s => if 1 < cnt s then some (s, cnt s) else none)).map Prod.fst
      = l.filter (fun s => decide (1 < cnt s)) := by
  induction l with
  | nil => rfl
  | cons a t ih =>
    by_cases h : 1 < cnt a
    · simp [List.filterMap_cons, List.filter_cons, h, ih]
    · simp [List.filterMap_cons, List.filter_cons, h, ih]

/-- Claim C2: for every input name, is_legitimate_cocktail returns true
exactly when the normalized name matches no junk pattern anchored at
position 0 and is an exact element of the allow-list; an empty (falsy) name
is rejected. -/
theorem claim_C2_classifier_characterization :
    (∀ name : String, is_legitimate_cocktail name = true ↔
        junkAny (normalize_name name) = false ∧
          normalize_name name ∈ LEGITIMATE_COCKTAILS) ∧
      is_legitimate_cocktail "" = false := by
  constructor
  · intro name
    by_cases h : junkAny (normalize_name name)
    · simp [is_legitimate_cocktail, h]
    · simp only [Bool.not_eq_true] at h
      simp [is_legitimate_cocktail, h, List.elem_iff]
  · decide

/-- Claim C1 counterexample: the allow-list entry b-52 normalizes to b52,
which matches no junk pattern, yet the classifier rejects it, because the
normalized form is no longer an element of the allow-list. -/
theorem claim_C1_counterexample :
    codes "b-52" ∈ LEGITIMATE_COCKTAILS ∧
      junkAny (normalize_name "b-52") = false ∧
        is_legitimate_cocktail "b-52" = false :=
  ⟨by decide, by decide, by decide⟩

/-- Claim C1 as amended: for every name whose NORMALIZED form is an element
of the allow-list, the classifier accepts it unless the normalized form
matches a junk pattern at position 0. -/
theorem claim_C1_amended (name : String)
    (h1 : normalize_name name ∈ LEGITIMATE_COCKTAILS)
    (h2 : junkAny (normalize_name name) = false) :
    is_legitimate_cocktail name = true := by
  simp [is_legitimate_cocktail, h2, List.elem_iff]
  exact h1

/-- Witness for the amended claim C1 at the concrete name Margarita. -/
theorem claim_C1_amended_witness :
    (normalize_name "Margarita" ∈ LEGITIMATE_COCKTAILS ∧
        junkAny (normalize_name "Margarita") = false) ∧
      is_legitimate_cocktail "Margarita" = true :=
  ⟨⟨by decide, by decide⟩, claim_C1_amended "Margarita" (by decide) (by decide)⟩

/-- Claim C3: in the enrichment pass, a record whose base slug collides
with the registry is renamed to slug-id with its own id while the registry
keeps the base entry, so a third colliding record is again suffixed with its
own id; concretely, ids 5 and 9 with the same base slug foo yield foo and
foo-9. -/
theorem claim_C3_slug_dedup :
    (∀ (a b c s : List Nat),
        assignSlugs [] [(a, s), (b, s), (c, s)] =
          [(a, s), (b, s ++ 45 :: b), (c, s ++ 45 :: c)]) ∧
      mainDedup [("5", "Foo"), ("9", "Foo")] =
        [(codes "5", codes "foo"), (codes "9", codes "foo-9")] := by
  constructor
  · intro a b c s
    simp [assignSlugs]
  · decide

/-- Claim C8: create_slug is idempotent, both on arbitrary code-point
sequences and on every string input. -/
theorem claim_C8_make_slug_idempotent :
    (∀ x : List Nat, slugCodes (slugCodes x) = slugCodes x) ∧
      ∀ s : String, slugCodes (create_slug s) = create_slug s :=
  ⟨slugCodes_idem, fun s => slugCodes_idem (codes s)⟩

/-- Claim C9: a name with a non-ASCII letter kept by the word-character
class of create_slug produces a slug that fails the URL-safety pattern of
the slug validator. -/
theorem claim_C9_generated_slug_not_url_safe :
    create_slug "Pi\u00f1a Colada" = codes "pi\u00f1a-colada" ∧
      is_url_safe (create_slug "Pi\u00f1a Colada") = false :=
  ⟨by decide, by decide⟩

/-- Claim C4: validate_ingredient_format accepts a token exactly when the
stripped token is nonempty, free of the three question marks, distinct from
the literals null and None, at least 2 characters long, pipe-free and
contains an ASCII letter; the checks run in source order and the first
failure decides the message, as the concrete examples show. -/
theorem claim_C4_ingredient_format :
    (∀ t : List Nat, (validate_ingredient_format t).1 = true ↔
        (pyStrip t ≠ [] ∧ hasSub (codes "???") (pyStrip t) = false ∧
          pyStrip t ≠ codes "null" ∧ pyStrip t ≠ codes "None" ∧
            2 ≤ (pyStrip t).length ∧ (pyStrip t).count 124 = 0 ∧
              hasAsciiLetter (pyStrip t) = true)) ∧
      validate_ingredient_format (codes "2 oz gin") = (true, none) ∧
        validate_ingredient_format (codes "Lemon twist") = (true, none) ∧
          validate_ingredient_format (codes "") = (false, some "Empty ingredient") ∧
            validate_ingredient_format (codes "a") = (false, some "Too short") ∧
              validate_ingredient_format (codes "gin???") = (false, some "Contains \x27???\x27") ∧
                validate_ingredient_format (codes "null") = (false, some "Invalid null value") ∧
                  validate_ingredient_format (codes "123") = (false, some "No ingredient name found") ∧
                    validate_ingredient_format (codes "?") = (false, some "Too short") := by
  refine ⟨?_, by decide, by decide, by decide, by decide, by decide, by decide, by decide, by decide⟩
  intro t
  simp only [validate_ingredient_format]
  split_ifs with h1 h2 h3 h4 h5 h6 <;> simp_all
  · intro hnull hnone _ _
    rcases h3 with h | h
    · exact absurd h hnull
    · exact absurd h hnone
  · intro hcnt
    exact absurd h5 (List.count_eq_zero.mp hcnt)
  · exact List.count_eq_zero.mpr h5

theorem rowErrors_eq_nil_iff (line : Nat) (ing : List Nat) :
    rowErrors line ing = [] ↔
      ∀ tok ∈ rowTokens ing, (validate_ingredient_format tok).1 = true := by
  unfold rowErrors
  by_cases h : pyStrip ing = []
  · rw [if_pos h]
    constructor
    · intro habs
      exact absurd habs (by simp)
    · intro hall
      exfalso
      have htok : ([] : List Nat) ∈ rowTokens ing := by
        unfold rowTokens
        rw [h]
        decide
      have h2 := hall [] htok
      rw [show (validate_ingredient_format ([] : List Nat)).1 = false from by decide] at h2
      exact Bool.false_ne_true h2
  · rw [if_neg h, List.filterMap_eq_nil_iff]
    constructor
    · intro hall tok htok
      have h1 := hall tok htok
      rcases hv : validate_ingredient_format tok with ⟨b, m⟩
      rw [hv] at h1
      cases b
      · exfalso
        simp at h1
      · rfl
    · intro hall tok htok
      have h1 := hall tok htok
      rcases hv : validate_ingredient_format tok with ⟨b, m⟩
      rw [hv] at h1
      cases b
      · exact absurd h1 (by simp)
      · rfl

theorem ingErrorsFrom_eq_nil_iff (rows : List (List Nat)) :
    ∀ line, ingErrorsFrom line rows = [] ↔
      ∀ ing ∈ rows, ∀ tok ∈ rowTokens ing, (validate_ingredient_format tok).1 = true := by
  induction rows with
  | nil => intro line; simp [ingErrorsFrom]
  | cons ing rest ih =>
    intro line
    rw [ingErrorsFrom, List.append_eq_nil, rowErrors_eq_nil_iff, ih (line + 1)]
    constructor
    · rintro ⟨hhead, htail⟩ x hx
      rcases List.mem_cons.mp hx with rfl | hx
      · exact hhead
      · exact htail x hx
    · intro hall
      exact ⟨hall ing (List.mem_cons_self ing rest),
        fun x hx => hall x (List.mem_cons_of_mem ing hx)⟩

/-- Claim C5 counterexample: a file with a header row and zero data rows
produces an empty error list and yet no success verdict, because the
summary division raises ZeroDivisionError first. -/
theorem claim_C5_counterexample :
    ingErrors [] = [] ∧ validate_ingredients [] ≠ some true :=
  ⟨by decide, by decide⟩

/-- Claim C5 as amended: for every input file with at least one data row,
the overall result is failure exactly when some ingredient token of some
row fails validate_ingredient_format, success exactly when all tokens pass,
and the verdict is determined by the error list alone, so warnings never
affect it. -/
theorem claim_C5_amended (rows : List (List Nat)) (hne : rows ≠ []) :
    (validate_ingredients rows = some false ↔
        ∃ ing ∈ rows, ∃ tok ∈ rowTokens ing, (validate_ingredient_format tok).1 = false) ∧
      (validate_ingredients rows = some true ↔
        ∀ ing ∈ rows, ∀ tok ∈ rowTokens ing, (validate_ingredient_format tok).1 = true) ∧
      validate_ingredients rows = some (ingErrors rows).isEmpty := by
  have hlen : rows.length ≠ 0 := fun h => hne (List.length_eq_zero.mp h)
  have hval : validate_ingredients rows = some (ingErrors rows).isEmpty := by
    unfold validate_ingredients pyDiv
    rw [if_neg hlen]
  refine ⟨?_, ?_, hval⟩
  · rw [hval]
    simp only [Option.some.injEq]
    constructor
    · intro hfalse
      have hnil : ingErrors rows ≠ [] := by
        intro hnil
        rw [hnil] at hfalse
        simp at hfalse
      unfold ingErrors at hnil
      by_contra hno
      push_neg at hno
      apply hnil
      rw [ingErrorsFrom_eq_nil_iff]
      intro ing hing tok htok
      have h2 := hno ing hing tok htok
      simpa using h2
    · rintro ⟨ing, hing, tok, htok, hbad⟩
      by_contra hne2
      have hemp : (ingErrors rows).isEmpty = true := by
        cases hh : (ingErrors rows).isEmpty
        · exact absurd (by rw [hh]) hne2
        · rfl
      rw [List.isEmpty_iff] at hemp
      unfold ingErrors at hemp
      rw [ingErrorsFrom_eq_nil_iff] at hemp
      have h3 := hemp ing hing tok htok
      rw [hbad] at h3
      exact Bool.false_ne_true h3
  · rw [hval]
    simp only [Option.some.injEq, List.isEmpty_iff]
    unfold ingErrors
    exact ingErrorsFrom_eq_nil_iff rows 2

/-- Witness for the amended claim C5 at a concrete one-row file. -/
theorem claim_C5_amended_witness :
    ([codes "2 oz gin|1 oz lime"] : List (List Nat)) ≠ [] ∧
      ((validate_ingredients [codes "2 oz gin|1 oz lime"] = some false ↔
          ∃ ing ∈ [codes "2 oz gin|1 oz lime"], ∃ tok ∈ rowTokens ing,
            (validate_ingredient_format tok).1 = false) ∧
        (validate_ingredients [codes "2 oz gin|1 oz lime"] = some true ↔
          ∀ ing ∈ [codes "2 oz gin|1 oz lime"], ∀ tok ∈ rowTokens ing,
            (validate_ingredient_format tok).1 = true) ∧
        validate_ingredients [codes "2 oz gin|1 oz lime"] =
          some (ingErrors [codes "2 oz gin|1 oz lime"]).isEmpty) :=
  ⟨by decide, claim_C5_amended [codes "2 oz gin|1 oz lime"] (by decide)⟩

/-- Claim C10: on a file with a header row but zero data rows the
ingredient validator hits the division total_ingredients / total_rows with
total_rows equal to zero and raises ZeroDivisionError (modelled as `none`)
instead of returning a verdict, and this is the only input shape on which
it fails to return one. -/
theorem claim_C10_division_by_zero :
    validate_ingredients [] = none ∧
      ∀ rows : List (List Nat), validate_ingredients rows = none ↔ rows = [] := by
  constructor
  · decide
  · intro rows
    unfold validate_ingredients pyDiv
    by_cases h : rows.length = 0
    · rw [if_pos h]
      simp [List.length_eq_zero.mp h]
    · rw [if_neg h]
      constructor
      · intro habs
        exact absurd habs (by simp)
      · intro habs
        exact absurd (congrArg List.length habs) (by simpa using h)

/-- Claim C6: the slug validator checks all per-slug rules without
short-circuiting (one slug can report several errors, a double hyphen is
only a warning), reports every slug of multiplicity greater than one as a
duplicate exactly once with its count, and fails overall exactly when some
per-slug error or some duplicate exists. -/
theorem claim_C6_slug_validator :
    (∀ rows : List (List Nat), validate_slugs rows = false ↔
        (slugErrors rows ≠ [] ∨ duplicatesReport rows ≠ [])) ∧
      (∀ (rows : List (List Nat)) (s : List Nat) (c : Nat),
        (s, c) ∈ duplicatesReport rows ↔
          (s ∈ collectedSlugs rows ∧ c = (collectedSlugs rows).count s ∧ 1 < c)) ∧
      (∀ rows : List (List Nat), ((duplicatesReport rows).map Prod.fst).Nodup) ∧
      rowSlugErrors 2 (codes "old-fashioned") = [] ∧
      rowSlugWarnings 2 (codes "old-fashioned") = [] ∧
      rowSlugErrors 2 (codes "Old-Fashioned") =
        [(2, "contains uppercase letters"), (2, "is not URL-safe")] ∧
      rowSlugErrors 2 (codes "old--fashioned") = [] ∧
      rowSlugWarnings 2 (codes "old--fashioned") = [(2, "contains consecutive hyphens")] ∧
      rowSlugErrors 2 (codes "-old-fashioned") = [(2, "has leading or trailing hyphens")] ∧
      duplicatesReport [codes "margarita", codes "margarita"] =
        [(codes "margarita", 2)] := by
  refine ⟨?_, ?_, ?_, by decide, by decide, by decide, by decide, by decide, by decide, by decide⟩
  · intro rows
    simp only [validate_slugs]
    rcases slugErrors rows with _ | ⟨e, es⟩ <;>
      rcases duplicatesReport rows with _ | ⟨d, ds⟩ <;> simp
  · intro rows s c
    simp only [duplicatesReport, List.mem_filterMap]
    constructor
    · rintro ⟨a, ha, hfa⟩
      rw [mem_dedupKeys] at ha
      by_cases hlt : 1 < (collectedSlugs rows).count a
      · rw [if_pos hlt] at hfa
        simp only [Option.some.injEq, Prod.mk.injEq] at hfa
        obtain ⟨rfl, rfl⟩ := hfa
        exact ⟨ha, rfl, hlt⟩
      · rw [if_neg hlt] at hfa
        exact absurd hfa (by simp)
    · rintro ⟨hs, rfl, hlt⟩
      refine ⟨s, (mem_dedupKeys s _).mpr hs, ?_⟩
      rw [if_pos hlt]
  · intro rows
    simp only [duplicatesReport]
    rw [map_fst_filterMap_count (fun s => (collectedSlugs rows).count s)]
    exact List.Nodup.filter _ (dedupKeys_nodup _)

/-- Claim C7 counterexample: the name Sidecar matches no bitterness
keyword, and generate_flavor_profile returns the default 3 for bitterness,
which is neither 5 nor 4 nor 6 as the claim states. -/
theorem claim_C7_counterexample :
    generate_flavor_profile "Sidecar" "bitterness" = 3 ∧
      noFlavorKeyword "Sidecar" "bitterness" = true ∧
        (3 : Nat) ≠ 5 ∧ (3 : Nat) ≠ 4 ∧ (3 : Nat) ≠ 6 :=
  ⟨by decide, by decide, by decide, by decide, by decide⟩

/-- Claim C7 as amended: every flavor rating lies between 1 and 10, and
when no keyword group of an aspect matches, the returned default is 6 for
strength, 5 for sweetness, 4 for tartness, 3 for bitterness, 5 for aroma
and 5 for texture. -/
theorem claim_C7_amended :
    (∀ (name aspect : String), 1 ≤ generate_flavor_profile name aspect ∧
        generate_flavor_profile name aspect ≤ 10) ∧
      ∀ (name aspect : String), noFlavorKeyword name aspect = true →
        generate_flavor_profile name aspect = defaultFlavor aspect := by
  constructor
  · intro name aspect
    simp only [generate_flavor_profile]
    split_ifs <;> omega
  · intro name aspect h
    by_cases h1 : aspect = "strength"
    · simp only [noFlavorKeyword, if_pos h1] at h
      simp only [generate_flavor_profile, defaultFlavor, if_pos h1]
      simp only [Bool.and_eq_true, Bool.not_eq_true'] at h
      obtain ⟨⟨ha, hb⟩, hc⟩ := h
      simp [ha, hb, hc]
    · by_cases h2 : aspect = "sweetness"
      · simp only [noFlavorKeyword, if_neg h1, if_pos h2] at h
        simp only [generate_flavor_profile, defaultFlavor, if_neg h1, if_pos h2]
        simp only [Bool.and_eq_true, Bool.not_eq_true'] at h
        obtain ⟨ha, hb⟩ := h
        simp [ha, hb]
      · by_cases h3 : aspect = "tartness"
        · simp only [noFlavorKeyword, if_neg h1, if_neg h2, if_pos h3] at h
          simp only [generate_flavor_profile, defaultFlavor, if_neg h1, if_neg h2, if_pos h3]
          simp only [Bool.and_eq_true, Bool.not_eq_true'] at h
          obtain ⟨ha, hb⟩ := h
          simp [ha, hb]
        · by_cases h4 : aspect = "bitterness"
          · simp only [noFlavorKeyword, if_neg h1, if_neg h2, if_neg h3, if_pos h4] at h
            simp only [generate_flavor_profile, defaultFlavor, if_neg h1, if_neg h2,
              if_neg h3, if_pos h4]
            simp only [Bool.and_eq_true, Bool.not_eq_true'] at h
            obtain ⟨ha, hb⟩ := h
            simp [ha, hb]
          · by_cases h5 : aspect = "aroma"
            · simp only [noFlavorKeyword, if_neg h1, if_neg h2, if_neg h3, if_neg h4,
                if_pos h5] at h
              simp only [generate_flavor_profile, defaultFlavor, if_neg h1, if_neg h2,
                if_neg h3, if_neg h4, if_pos h5]
              simp only [Bool.not_eq_true'] at h
              simp [h]
            · by_cases h6 : aspect = "texture"
              · simp only [noFlavorKeyword, if_neg h1, if_neg h2, if_neg h3, if_neg h4,
                  if_neg h5, if_pos h6] at h
                simp only [generate_flavor_profile, defaultFlavor, if_neg h1, if_neg h2,
                  if_neg h3, if_neg h4, if_neg h5, if_pos h6]
                simp only [Bool.and_eq_true, Bool.not_eq_true'] at h
                obtain ⟨⟨ha, hb⟩, hc⟩ := h
                simp [ha, hb, hc]
              · simp only [generate_flavor_profile, defaultFlavor, if_neg h1, if_neg h2,
                  if_neg h3, if_neg h4, if_neg h5, if_neg h6]

/-- Witness for the amended claim C7 at the concrete name Sidecar and
aspect bitterness. -/
theorem claim_C7_amended_witness :
    (1 ≤ generate_flavor_profile "Sidecar" "bitterness" ∧
        generate_flavor_profile "Sidecar" "bitterness" ≤ 10) ∧
      noFlavorKeyword "Sidecar" "bitterness" = true ∧
        generate_flavor_profile "Sidecar" "bitterness" = defaultFlavor "bitterness" :=
  ⟨claim_C7_amended.1 "Sidecar" "bitterness",
    by decide,
    claim_C7_amended.2 "Sidecar" "bitterness" (by decide)⟩
